import Mathlib

/-
Shallow embedding of the product Web API (controllers/productController.js,
services/productService.js, dataAccess/productData.js, and the validator,
model and data-access code listed in readme.md).

JavaScript values relevant to this code base are modelled by `JSVal`
(strings, numbers, null, undefined).  JavaScript numbers are modelled
exactly by `JSNum`: NaN or a scaled decimal `Dec` (mantissa over a power of
ten, kept in lowest terms); every number this code base manipulates is the
exact value of a short decimal literal, so binary-float rounding never
shows.  Thrown exceptions are modelled with `Except JSError`; a JS function
that returns `undefined` on its failure path is modelled with `Option`.
-/

set_option autoImplicit false

namespace WebApiDb

/-- Decidable equality for `Except`, used to evaluate the embedded
functions on concrete inputs. -/
instance instDecEqExcept {ε α : Type} [DecidableEq ε] [DecidableEq α] :
    DecidableEq (Except ε α) := fun a b =>
  match a, b with
  | .ok x, .ok y =>
    match decEq x y with
    | isTrue h => isTrue (congrArg Except.ok h)
    | isFalse h => isFalse (fun hh => h (Except.ok.inj hh))
  | .error x, .error y =>
    match decEq x y with
    | isTrue h => isTrue (congrArg Except.error h)
    | isFalse h => isFalse (fun hh => h (Except.error.inj hh))
  | .ok _, .error _ => isFalse (fun hh => Except.noConfusion hh)
  | .error _, .ok _ => isFalse (fun hh => Except.noConfusion hh)

/-- Exact decimal number: value is `mant / 10 ^ exp`.  Constructed only via
`Dec.norm`, which strips common factors of ten, so two `Dec`s denote the
same number exactly when they are structurally equal. -/
structure Dec where
  mant : ℤ
  exp : ℕ
deriving DecidableEq

/-- Strip factors of ten shared by the mantissa and the scale. -/
def normPair (m : ℤ) : ℕ → ℤ × ℕ
  | 0 => (m, 0)
  | e + 1 => if m % 10 = 0 then normPair (m / 10) e else (m, e + 1)

/-- Normalizing constructor for `Dec`. -/
def Dec.norm (m : ℤ) (e : ℕ) : Dec :=
  ⟨(normPair m e).1, (normPair m e).2⟩

/-- The decimal value of a natural number. -/
def Dec.ofNat (n : ℕ) : Dec := ⟨n, 0⟩

/-- Negation of a decimal value (normalization is preserved). -/
def Dec.neg (d : Dec) : Dec := ⟨-d.mant, d.exp⟩

/-- Model of a JavaScript number: NaN or an exact decimal value. -/
inductive JSNum where
  | nan
  | num (d : Dec)
deriving DecidableEq

/-- Model of the JavaScript values that flow through this code base. -/
inductive JSVal where
  | vUndefined
  | vNull
  | vNum (d : Dec)
  | vStr (s : String)
deriving DecidableEq

/-- Model of a thrown JavaScript error (only the message is observable here). -/
structure JSError where
  message : String
deriving DecidableEq

/-- Numeric value of a list of decimal digit characters (most significant first). -/
def digitsVal (cs : List Char) : ℕ :=
  cs.foldl (fun a c => a * 10 + (c.toNat - 48)) 0

/-- Decimal rendering of n / 10^k (n scaled by k fractional digits). -/
def natDecimalString (n k : ℕ) : String :=
  if k = 0 then Nat.repr n
  else
    let fs := Nat.repr (n % 10 ^ k)
    Nat.repr (n / 10 ^ k) ++ "." ++ String.mk (List.replicate (k - fs.length) '0') ++ fs

/-- Model of JavaScript number-to-string conversion on the exact decimals of
this code base (shortest decimal notation; the exponential notation JS uses
beyond 1e21 / below 1e-6 is outside the values this API produces). -/
def decToJsString (d : Dec) : String :=
  if d.mant < 0 then "-" ++ natDecimalString d.mant.natAbs d.exp
  else natDecimalString d.mant.natAbs d.exp

/-- Model of the JavaScript coercion `v + ''` used by the validator to turn
form fields into strings. -/
def jsToStr : JSVal → String
  | .vUndefined => "undefined"
  | .vNull => "null"
  | .vNum d => decToJsString d
  | .vStr s => s

/-- Exponent tail of a JS decimal literal applied to mantissa `m` scaled by
`e` fractional digits: accepts an empty tail or `e`/`E` with an optionally
signed digit string. -/
def parseExpTail (m : ℤ) (e : ℕ) (cs : List Char) : Option Dec :=
  match cs with
  | [] => some (Dec.norm m e)
  | c :: rest =>
    if c = 'e' ∨ c = 'E' then
      match rest with
      | '+' :: ds =>
        if !ds.isEmpty && ds.all Char.isDigit then
          some (Dec.norm (m * (10 : ℤ) ^ digitsVal ds) e)
        else none
      | '-' :: ds =>
        if !ds.isEmpty && ds.all Char.isDigit then
          some (Dec.norm m (e + digitsVal ds))
        else none
      | ds =>
        if !ds.isEmpty && ds.all Char.isDigit then
          some (Dec.norm (m * (10 : ℤ) ^ digitsVal ds) e)
        else none
    else none

/-- Unsigned JS decimal literal: `digits [. digits] [exp]` or `. digits [exp]`. -/
def parseDecimal (cs : List Char) : Option Dec :=
  let ip := cs.takeWhile Char.isDigit
  let r1 := cs.dropWhile Char.isDigit
  match r1 with
  | '.' :: rest =>
    let fp := rest.takeWhile Char.isDigit
    let r2 := rest.dropWhile Char.isDigit
    if ip.isEmpty && fp.isEmpty then none
    else parseExpTail ((digitsVal ip : ℤ) * (10 : ℤ) ^ fp.length + (digitsVal fp : ℤ)) fp.length r2
  | _ => if ip.isEmpty then none else parseExpTail (digitsVal ip : ℤ) 0 r1

/-- Whitespace trimming on character lists (JS `String.prototype.trim`). -/
def trimChars (cs : List Char) : List Char :=
  (((cs.dropWhile Char.isWhitespace).reverse.dropWhile Char.isWhitespace).reverse)

/-- Model of JavaScript `Number(string)` on decimal literals: trimmed empty
string is 0, an optionally signed decimal literal is its value, anything
else is NaN.  (Hex, binary and Infinity literals are outside the fragment
this code base can feed to `Number`; none passes its validators.) -/
def jsStringToNumber (s : String) : JSNum :=
  match trimChars s.data with
  | [] => .num (Dec.ofNat 0)
  | '+' :: r =>
    (match parseDecimal r with
     | some d => .num d
     | none => .nan)
  | '-' :: r =>
    (match parseDecimal r with
     | some d => .num d.neg
     | none => .nan)
  | r =>
    (match parseDecimal r with
     | some d => .num d
     | none => .nan)

/-- Model of JavaScript `Number(v)` as used by the Product constructor. -/
def toNumber : JSVal → JSNum
  | .vUndefined => .nan
  | .vNull => .num (Dec.ofNat 0)
  | .vNum d => .num d
  | .vStr s => jsStringToNumber s

/-- The validator.isNumeric check with `no_symbols: true`: the string matches
`[0-9]+` (nonempty, decimal digits only). -/
def isNumericNoSymbols (s : String) : Bool :=
  !s.data.isEmpty && s.data.all Char.isDigit

/-- Split a character list at every occurrence of `c` (the groups between
separators, in order; always at least one group). -/
def splitOnChar (c : Char) : List Char → List (List Char)
  | [] => [[]]
  | a :: rest =>
    match splitOnChar c rest with
    | [] => [[]]
    | g :: gs => if a = c then [] :: g :: gs else (a :: g) :: gs

/-- Digit run with no leading zero: `[1-9][0-9]*`. -/
def wholeNoSep (cs : List Char) : Bool :=
  match cs with
  | c :: rest => ( '1' ≤ c && c ≤ '9') && rest.all Char.isDigit
  | [] => false

/-- A thousands group: exactly three digits. -/
def commaGroup (g : List Char) : Bool :=
  g.length = 3 && g.all Char.isDigit

/-- Comma-grouped dollars: `[1-9][0-9]{0,2}(,[0-9]{3})*`. -/
def wholeWithSep (cs : List Char) : Bool :=
  match splitOnChar ',' cs with
  | [] => false
  | first :: groups =>
    wholeNoSep first && first.length ≤ 3 && groups.all commaGroup

/-- The whole-dollar alternatives of validator.isCurrency:
`0 | [1-9][0-9]* | [1-9][0-9]{0,2}(,[0-9]{3})*`. -/
def validWhole (cs : List Char) : Bool :=
  cs = [ '0' ] || wholeNoSep cs || wholeWithSep cs

/-- The validator.isCurrency predicate under the options this code base passes
(`allow_negatives: false`; `no_symbols` is not an isCurrency option and is
ignored, so the defaults apply: optional `$` symbol, `.` decimal separator,
`,` thousands separator, exactly two digits after the decimal point,
at least one digit overall). -/
def isCurrencyNoNegatives (s : String) : Bool :=
  let t := match s.data with
    | '$' :: r => r
    | r => r
  match splitOnChar '.' t with
  | [w] => validWhole w
  | [w, d] => (w.isEmpty || validWhole w) && d.length = 2 && d.all Char.isDigit
  | _ => false

/-- Global replacement of one character by a string. -/
def replaceChar (s : String) (c : Char) (rep : String) : String :=
  String.mk (s.data.flatMap fun a => if a = c then rep.data else [a])

/-- The validator.escape sanitizer: sequential global replacement of the HTML-significant
characters by entities, in the library source order: ampersand, double
quote, apostrophe (39), angle brackets, forward slash, backslash,
backtick (96). -/
def escape (s : String) : String :=
  let s1 := replaceChar s '&' ("&amp;")
  let s2 := replaceChar s1 (Char.ofNat 34) ("&quot;")
  let s3 := replaceChar s2 (Char.ofNat 39) ("&#x27;")
  let s4 := replaceChar s3 '<' ("&lt;")
  let s5 := replaceChar s4 '>' ("&gt;")
  let s6 := replaceChar s5 '/' ("&#x2F;")
  let s7 := replaceChar s6 '\\' ("&#x5C;")
  replaceChar s7 (Char.ofNat 96) ("&#96;")

/-- Product object model from models/product.js: a constructor-function
record; the numeric positions are passed through `Number(...)`, the text
positions are stored as given. -/
structure Product where
  id : JSNum
  category_id : JSNum
  product_name : JSVal
  product_description : JSVal
  product_stock : JSNum
  product_price : JSNum
deriving DecidableEq

/-- The Product constructor function (models/product.js). -/
def Product.make (id cat name desc stock price : JSVal) : Product :=
  { id := toNumber id
  , category_id := toNumber cat
  , product_name := name
  , product_description := desc
  , product_stock := toNumber stock
  , product_price := toNumber price }

/-- The five fields of the request-body object read by validateNewProduct;
a field the client did not send is `vUndefined`. -/
structure FormProduct where
  category_id : JSVal
  product_name : JSVal
  product_description : JSVal
  product_stock : JSVal
  product_price : JSVal
deriving DecidableEq

/-- The argument of validateNewProduct: `req.body` may be an object, null or
undefined. -/
inductive FormInput where
  | jsNull
  | jsUndefined
  | obj (f : FormProduct)
deriving DecidableEq

/-- The TypeError raised by validator.js assertString when a non-string
reaches isEmpty or escape. -/
def assertStringError (v : JSVal) : JSError :=
  { message := "Expected a string but received a " ++
      (match v with
       | .vUndefined => "undefined"
       | .vNull => "null"
       | .vNum _ => "number"
       | .vStr _ => "string") }

/-- The function validateNewProduct from validators/productValidator.js (readme.md).
Mirrors the source shape: a null (or undefined) parameter survives the
debug log but the first property access then throws; the `&&` chain
evaluates isNumeric on `field + ''` (never throws), isEmpty on the raw text
fields (throws on non-strings), isCurrency on `price + ''`; on success a
Product is constructed with id 0 and escaped text fields; on failure the
function logs and returns undefined (`Option.none`). -/
def validateNewProduct (formProduct : FormInput) : Except JSError (Option Product) :=
  match formProduct with
  | .jsNull => .error { message := "Cannot read properties of null (reading category_id)" }
  | .jsUndefined => .error { message := "Cannot read properties of undefined (reading category_id)" }
  | .obj f =>
    if isNumericNoSymbols (jsToStr f.category_id) then
      match f.product_name with
      | .vStr name =>
        if !(name.length = 0) then
          match f.product_description with
          | .vStr desc =>
            if !(desc.length = 0) then
              if isNumericNoSymbols (jsToStr f.product_stock) then
                if isCurrencyNoNegatives (jsToStr f.product_price) then
                  .ok (some (Product.make (.vNum (Dec.ofNat 0)) f.category_id
                    (.vStr (escape name)) (.vStr (escape desc))
                    f.product_stock f.product_price))
                else .ok none
              else .ok none
            else .ok none
          | v => .error (assertStringError v)
        else .ok none
      | v => .error (assertStringError v)
    else .ok none

/-- Modelled from the spec: `validateId` lives in validators/baseValidators.js,
which is not among the sources (only its callers in the service layer are).
Per the spec it accepts a raw identifier as received from a route parameter,
confirms it represents a positive integer (rejecting non-numeric, negative,
zero and fractional inputs, i.e. anything that is not a clean positive
integer string) and returns the normalized integer, else a falsy signal. -/
def validateId (id : JSVal) : Option ℕ :=
  match id with
  | .vStr s =>
    if isNumericNoSymbols s then
      if 0 < digitsVal s.data then some (digitsVal s.data) else none
    else none
  | _ => none

/-- The data carried by one `product` row, as assembled by createProduct:
exactly the five validated fields, with no id position at all. -/
structure RowData where
  category_id : JSNum
  product_name : JSVal
  product_description : JSVal
  product_stock : JSNum
  product_price : JSNum
deriving DecidableEq

/-- A persisted `product` row: the storage-assigned id plus the field data. -/
structure Row where
  id : ℕ
  data : RowData
deriving DecidableEq

/-- The ORM collaborator (the shared Prisma client) as an oracle: each
operation used by productData.js, as the outcome the ORM call would have
(a value, or a thrown storage error carrying a message).  The `where`
arguments are passed as JS values, as the untyped source does. -/
structure Db where
  findMany : Except String (List Row)
  findUnique : JSVal → Except String (Option Row)
  findManyWhere : JSVal → Except String (List Row)
  create : RowData → Except String Row

/-- The try/catch shape shared by every function in productData.js: the
result variable is declared, the ORM call assigns it, any exception is
caught (and logged message-only, which is not observable here), and the
variable - still undefined on failure - is returned. -/
def catchLogged {α : Type} (call : Except String α) : Option α :=
  match call with
  | .ok a => some a
  | .error _ => none

namespace ProductData

/-- Data access getProducts (productData.js): prisma.product.findMany with errors swallowed. -/
def getProducts (db : Db) : Option (List Row) :=
  catchLogged db.findMany

/-- Data access getProductById (productData.js): prisma.product.findUnique with `where {id}`;
`some none` is the ORM null for a missing row, `none` is the undefined
returned after a caught storage error. -/
def getProductById (db : Db) (id : JSVal) : Option (Option Row) :=
  catchLogged (db.findUnique id)

/-- Data access getProductsByCatId (productData.js): prisma.product.findMany with
`where {category_id}`, errors swallowed. -/
def getProductsByCatId (db : Db) (catId : JSVal) : Option (List Row) :=
  catchLogged (db.findManyWhere catId)

/-- The `data` object of prisma.product.create in createProduct (readme.md):
the five fields of the validated product, the numeric ones through
`Number(...)` (the identity here, since the validator already coerced
them), and no id. -/
def rowDataOf (product : Product) : RowData :=
  { category_id := product.category_id
  , product_name := product.product_name
  , product_description := product.product_description
  , product_stock := product.product_stock
  , product_price := product.product_price }

/-- Data access createProduct (readme.md): insert the data object built from
the validated fields, errors swallowed. -/
def createProduct (db : Db) (product : Product) : Option Row :=
  catchLogged (db.create (rowDataOf product))

end ProductData

/-- The JS values a service function can hand the controller: a row, a row
list, null, undefined, or a sentinel string. -/
inductive RetVal where
  | undefinedVal
  | null
  | row (r : Row)
  | rows (rs : List Row)
  | str (s : String)
deriving DecidableEq

namespace ProductService

/-- Service getProducts (productService.js): pass-through to data access. -/
def getProducts (db : Db) : RetVal :=
  match ProductData.getProducts db with
  | some rs => .rows rs
  | none => .undefinedVal

/-- Service getProductById (productService.js): validate the raw id; on success query
data access with the normalized number; on failure return the sentinel
string without touching data access. -/
def getProductById (db : Db) (id : JSVal) : RetVal :=
  match validateId id with
  | some n =>
    (match ProductData.getProductById db (.vNum (Dec.ofNat n)) with
     | some (some r) => .row r
     | some none => .null
     | none => .undefinedVal)
  | none => .str ("Invalid product id")

/-- Service getProductsByCatId (productService.js): same gate, same sentinel. -/
def getProductsByCatId (db : Db) (id : JSVal) : RetVal :=
  match validateId id with
  | some n =>
    (match ProductData.getProductsByCatId db (.vNum (Dec.ofNat n)) with
     | some rs => .rows rs
     | none => .undefinedVal)
  | none => .str ("Invalid product id")

/-- Service addNewProduct (readme.md): run the validator (whose
exceptions propagate), then either insert the validated product and return
the data-access result, or return the sentinel string. -/
def addNewProduct (db : Db) (productForm : FormInput) : Except JSError RetVal :=
  match validateNewProduct productForm with
  | .error e => .error e
  | .ok (some validatedProduct) =>
    .ok (match ProductData.createProduct db validatedProduct with
         | some r => .row r
         | none => .undefinedVal)
  | .ok none => .ok (.str ("invalid product data"))

end ProductService

/-- An HTTP response body: none at all (res.json(undefined) sends an empty
body), a JSON body, or the plain-text body of an error response. -/
inductive Body where
  | empty
  | json (s : String)
  | text (s : String)
deriving DecidableEq

/-- The observable HTTP response of one request. -/
structure HttpResponse where
  status : ℕ
  body : Body
deriving DecidableEq

/-- JSON rendering of a number field (JSON.stringify turns NaN into null). -/
def jsonOfJSNum : JSNum → String
  | .nan => "null"
  | .num d => decToJsString d

/-- JSON rendering of a text field (the validated fields are entity-escaped
strings, so no JSON escaping arises). -/
def jsonOfJSVal : JSVal → String
  | .vStr s => "\x22" ++ s ++ "\x22"
  | .vNum d => decToJsString d
  | .vNull => "null"
  | .vUndefined => "null"

/-- JSON rendering of one product row. -/
def jsonOfRow (r : Row) : String :=
  "\x7b\x22id\x22:" ++ Nat.repr r.id ++
  ",\x22category_id\x22:" ++ jsonOfJSNum r.data.category_id ++
  ",\x22product_name\x22:" ++ jsonOfJSVal r.data.product_name ++
  ",\x22product_description\x22:" ++ jsonOfJSVal r.data.product_description ++
  ",\x22product_stock\x22:" ++ jsonOfJSNum r.data.product_stock ++
  ",\x22product_price\x22:" ++ jsonOfJSNum r.data.product_price ++ "\x7d"

/-- JSON rendering of a row list. -/
def jsonOfRows (rs : List Row) : String :=
  "[" ++ String.intercalate "," (rs.map jsonOfRow) ++ "]"

/-- Express res.json on a service value: always 200 here; undefined
serializes to no body at all, null to the JSON null body, a string to a
quoted JSON string body. -/
def resJson : RetVal → HttpResponse
  | .undefinedVal => { status := 200, body := .empty }
  | .null => { status := 200, body := .json ("null") }
  | .row r => { status := 200, body := .json (jsonOfRow r) }
  | .rows rs => { status := 200, body := .json (jsonOfRows rs) }
  | .str s => { status := 200, body := .json ("\x22" ++ s ++ "\x22") }

/-- The try/catch wrapper of every controller endpoint: a thrown error
becomes a 500 with the error message as plain-text body. -/
def controllerTry (action : Except JSError HttpResponse) : HttpResponse :=
  match action with
  | .ok r => r
  | .error e => { status := 500, body := .text e.message }

namespace ProductController

/-- GET / : res.json of productService.getProducts, 500 on a thrown error
(the service cannot throw in this model, matching the source, where data
access swallows storage errors). -/
def getAllHandler (db : Db) : HttpResponse :=
  controllerTry (.ok (resJson (ProductService.getProducts db)))

/-- GET /:id : res.json of productService.getProductById applied to the raw
route parameter (always a string), 500 on a thrown error. -/
def getByIdHandler (db : Db) (idParam : String) : HttpResponse :=
  controllerTry (.ok (resJson (ProductService.getProductById db (.vStr idParam))))

/-- What one run of the /bycat/:catId handler did: the response written
first (later writes to an already-sent response are not delivered) and
whether the downstream service call was issued. -/
structure BycatOutcome where
  response : HttpResponse
  serviceCalled : Bool
deriving DecidableEq

/-- GET /bycat/:catId (productController.js): when catId is undefined the
handler writes a 400 response but does not return, so control still enters
the try block and calls the service with the undefined catId; the later
res.json write is not delivered because the 400 response was already sent.
The `serviceCalled` flag records that the downstream call was issued. -/
def bycatHandler (db : Db) (catId : Option String) : BycatOutcome :=
  let preSent : Option HttpResponse :=
    match catId with
    | none => some { status := 400, body := .json ("\x7b\x22content\x22:\x22error\x22\x7d") }
    | some _ => none
  let svcArg : JSVal :=
    match catId with
    | none => .vUndefined
    | some s => .vStr s
  let result := ProductService.getProductsByCatId db svcArg
  { response :=
      match preSent with
      | some r => r
      | none => resJson result
  , serviceCalled := true }

end ProductController

/-- Modelled from the spec: the storage engine behind the ORM collaborator.
The `product` table is a row list plus the auto-increment counter; storage
owns id assignment, so `createRow` ignores everything but the field data
and stamps the next counter value. -/
structure Store where
  nextId : ℕ
  rows : List Row
deriving DecidableEq

/-- Modelled from the spec: inserting a row assigns the next id, appends
the stored row and advances the counter. -/
def Store.createRow (st : Store) (d : RowData) : Row × Store :=
  let r : Row := { id := st.nextId, data := d }
  (r, { nextId := st.nextId + 1, rows := st.rows ++ [r] })

/-- Modelled from the spec: the ORM collaborator over a concrete store.
findUnique and findMany-with-where require a number in the where clause
(the ORM throws a validation error on any other value type). -/
def storeDb (st : Store) : Db :=
  { findMany := .ok st.rows
  , findUnique := fun v =>
      match v with
      | .vNum d => .ok (st.rows.find? fun r => decide (Dec.ofNat r.id = d))
      | _ => .error ("PrismaClientValidationError: invalid where argument")
  , findManyWhere := fun v =>
      match v with
      | .vNum d => .ok (st.rows.filter fun r => decide (r.data.category_id = .num d))
      | _ => .error ("PrismaClientValidationError: invalid where argument")
  , create := fun d => .ok (st.createRow d).1 }

/-- A database whose every operation fails with the given storage error. -/
def failDb (msg : String) : Db :=
  { findMany := .error msg
  , findUnique := fun _ => .error msg
  , findManyWhere := fun _ => .error msg
  , create := fun _ => .error msg }

/-- A data-access result is nullish when it is undefined (swallowed error)
or null (no matching row): exactly the results that are falsy and loosely
equal to each other in JS. -/
def isNullish : Option (Option Row) → Bool
  | none => true
  | some none => true
  | some (some _) => false

/-- The well-formed example payload of the spec:
`{category_id: 1, product_name: "Widget", product_description: "A widget",
product_stock: 10, product_price: "9.99"}`. -/
def widgetForm : FormProduct :=
  { category_id := .vNum (Dec.ofNat 1)
  , product_name := .vStr "Widget"
  , product_description := .vStr "A widget"
  , product_stock := .vNum (Dec.ofNat 10)
  , product_price := .vStr "9.99" }

/-- The spec example of an invalid payload: product_name present but empty. -/
def emptyNameForm : FormProduct :=
  { widgetForm with product_name := .vStr "" }

/-- The Product the validator builds from `widgetForm` (no character of the
example needs escaping, so the text fields are unchanged). -/
def widgetProduct : Product :=
  Product.make (.vNum (Dec.ofNat 0)) (.vNum (Dec.ofNat 1)) (.vStr "Widget")
    (.vStr "A widget") (.vNum (Dec.ofNat 10)) (.vStr "9.99")

/-- Emptiness of a string agrees with emptiness of its character list. -/
theorem isEmpty_data (s : String) : s.isEmpty = s.data.isEmpty := by
  by_cases h : s = ""
  · subst h; rfl
  · have h1 : s.isEmpty = false := by
      rw [Bool.eq_false_iff]
      intro hh
      exact h ((String.isEmpty_iff s).1 hh)
    have h2 : s.data.isEmpty = false := by
      rw [Bool.eq_false_iff]
      intro hh
      apply h
      rw [String.ext_iff]
      exact List.isEmpty_iff.mp hh
    rw [h1, h2]

/-- The library digit-string test coincides with the embedded
validator.isNumeric test. -/
theorem isNat_eq (s : String) : s.isNat = isNumericNoSymbols s := by
  rw [String.isNat, isNumericNoSymbols, String.all_eq, isEmpty_data]

/-- A string has length zero exactly when it is the empty string. -/
theorem length_eq_zero_iff (s : String) : s.length = 0 ↔ s = "" := by
  rw [String.ext_iff]
  show s.data.length = 0 ↔ s.data = "".data
  rw [List.length_eq_zero]

/-- Claim C1: for every well-formed product payload (category_id a
non-negative numeric value, product_name and product_description non-empty
strings, product_stock a non-negative numeric value, product_price a
non-negative currency-formatted value), validateNewProduct returns a
Product whose id is 0, whose category_id, product_stock and product_price
are coerced to numbers, and whose text fields are HTML-escaped; the
escaping encodes the characters lt, gt, ampersand and double quote as
entities. -/
theorem validateNewProduct_wellFormed (f : FormProduct) (name desc : String)
    (hcat : isNumericNoSymbols (jsToStr f.category_id) = true)
    (hname : f.product_name = .vStr name) (hname2 : name ≠ "")
    (hdesc : f.product_description = .vStr desc) (hdesc2 : desc ≠ "")
    (hstock : isNumericNoSymbols (jsToStr f.product_stock) = true)
    (hprice : isCurrencyNoNegatives (jsToStr f.product_price) = true) :
    validateNewProduct (.obj f) =
      .ok (some { id := .num (Dec.ofNat 0)
                , category_id := toNumber f.category_id
                , product_name := .vStr (escape name)
                , product_description := .vStr (escape desc)
                , product_stock := toNumber f.product_stock
                , product_price := toNumber f.product_price }) ∧
    escape ("<") = "&lt;" ∧ escape (">") = "&gt;" ∧
    escape ("&") = "&amp;" ∧ escape ("\x22") = "&quot;" := by
  refine ⟨?_, by decide, by decide, by decide, by decide⟩
  have hn : ¬(name.length = 0) := fun hh => hname2 ((length_eq_zero_iff name).1 hh)
  have hd : ¬(desc.length = 0) := fun hh => hdesc2 ((length_eq_zero_iff desc).1 hh)
  simp [validateNewProduct, hname, hdesc, hcat, hstock, hprice, hn, hd, Product.make, toNumber]

/-- Claim C1 witness: the spec example payload evaluates as the theorem
states. -/
theorem validateNewProduct_wellFormed_witness :
    validateNewProduct (.obj widgetForm) =
      .ok (some { id := .num (Dec.ofNat 0)
                , category_id := toNumber widgetForm.category_id
                , product_name := .vStr (escape "Widget")
                , product_description := .vStr (escape "A widget")
                , product_stock := toNumber widgetForm.product_stock
                , product_price := toNumber widgetForm.product_price }) ∧
    escape ("<") = "&lt;" ∧ escape (">") = "&gt;" ∧
    escape ("&") = "&amp;" ∧ escape ("\x22") = "&quot;" :=
  validateNewProduct_wellFormed widgetForm "Widget" "A widget" (by decide) rfl
    (by decide) rfl (by decide) (by decide) (by decide)

/-- Claim C2 counterexample: on a null payload validateNewProduct does not
return an undefined/absent value - the property access after the debug log
throws a TypeError, so the claim fails at this input. -/
theorem validateNewProduct_nullThrows :
    validateNewProduct FormInput.jsNull =
      .error { message := "Cannot read properties of null (reading category_id)" } ∧
    validateNewProduct FormInput.jsNull ≠ .ok none := by decide

/-- Claim C2 (amended): for every object payload whose product_name and
product_description fields are strings, a validation failure makes
validateNewProduct return an undefined/absent value without throwing, and
the failing field is not reported to the caller (the failure value is the
same whichever field failed); null or undefined payloads and non-string
text fields throw a TypeError instead. -/
theorem validateNewProduct_stringFieldsFail (f : FormProduct) (name desc : String)
    (hname : f.product_name = .vStr name) (hdesc : f.product_description = .vStr desc)
    (hfail : ¬(isNumericNoSymbols (jsToStr f.category_id) = true ∧ name ≠ "" ∧ desc ≠ "" ∧
        isNumericNoSymbols (jsToStr f.product_stock) = true ∧
        isCurrencyNoNegatives (jsToStr f.product_price) = true)) :
    validateNewProduct (.obj f) = .ok none := by
  by_cases h1 : isNumericNoSymbols (jsToStr f.category_id) = true
  · by_cases h2 : name = ""
    · subst h2
      simp [validateNewProduct, hname, h1]
    · have hn : ¬(name.length = 0) := fun hh => h2 ((length_eq_zero_iff name).1 hh)
      by_cases h3 : desc = ""
      · subst h3
        simp [validateNewProduct, hname, hdesc, h1, hn]
      · have hd : ¬(desc.length = 0) := fun hh => h3 ((length_eq_zero_iff desc).1 hh)
        by_cases h4 : isNumericNoSymbols (jsToStr f.product_stock) = true
        · by_cases h5 : isCurrencyNoNegatives (jsToStr f.product_price) = true
          · exact absurd ⟨h1, h2, h3, h4, h5⟩ hfail
          · simp [validateNewProduct, hname, hdesc, h1, hn, hd, h4, h5]
        · simp [validateNewProduct, hname, hdesc, h1, hn, hd, h4]
  · simp [validateNewProduct, h1]

/-- Claim C2 witness: the empty-product_name payload fails validation and
yields the undefined result without a thrown error. -/
theorem validateNewProduct_stringFieldsFail_witness :
    validateNewProduct (.obj emptyNameForm) = .ok none :=
  validateNewProduct_stringFieldsFail emptyNameForm "" "A widget" rfl rfl (by decide)

/-- Claim C3: every data-access operation catches a storage-layer exception
inside the function and returns undefined instead of propagating it, and
the GET / controller still answers 200 with an empty JSON body when that
undefined value reaches it. -/
theorem storageErrors_swallowed (db : Db) (msg : String) (v : JSVal) (p : Product)
    (h1 : db.findMany = .error msg)
    (h2 : db.findUnique v = .error msg)
    (h3 : db.findManyWhere v = .error msg)
    (h4 : db.create (ProductData.rowDataOf p) = .error msg) :
    ProductData.getProducts db = none ∧
    ProductData.getProductById db v = none ∧
    ProductData.getProductsByCatId db v = none ∧
    ProductData.createProduct db p = none ∧
    ProductController.getAllHandler db = { status := 200, body := .empty } := by
  refine ⟨?_, ?_, ?_, ?_, ?_⟩ <;>
    simp [ProductData.getProducts, ProductData.getProductById,
      ProductData.getProductsByCatId, ProductData.createProduct, catchLogged,
      h1, h2, h3, h4, ProductController.getAllHandler, ProductService.getProducts,
      resJson, controllerTry]

/-- Claim C3 witness: a database whose every operation throws. -/
theorem storageErrors_swallowed_witness :
    ProductData.getProducts (failDb ("db down")) = none ∧
    ProductData.getProductById (failDb ("db down")) (.vNum (Dec.ofNat 1)) = none ∧
    ProductData.getProductsByCatId (failDb ("db down")) (.vNum (Dec.ofNat 1)) = none ∧
    ProductData.createProduct (failDb ("db down")) widgetProduct = none ∧
    ProductController.getAllHandler (failDb ("db down")) = { status := 200, body := .empty } :=
  storageErrors_swallowed (failDb ("db down")) "db down" (.vNum (Dec.ofNat 1))
    widgetProduct rfl rfl rfl rfl

/-- Claim C4: for every id rejected by validateId, getProductById and
getProductsByCatId return the literal sentinel string without consulting
data access (the result is the same for every database, including one whose
every operation throws), and the controller serializes it as a 200 JSON
body, never a 4xx. -/
theorem invalidId_sentinel (db : Db) (idParam : String)
    (h : validateId (.vStr idParam) = none) :
    ProductService.getProductById db (.vStr idParam) = .str ("Invalid product id") ∧
    ProductService.getProductsByCatId db (.vStr idParam) = .str ("Invalid product id") ∧
    ProductController.getByIdHandler db idParam =
      { status := 200, body := .json ("\x22Invalid product id\x22") } := by
  refine ⟨?_, ?_, ?_⟩ <;>
    simp [ProductService.getProductById, ProductService.getProductsByCatId,
      ProductController.getByIdHandler, h, resJson, controllerTry]

/-- Claim C4 witness: id "abc" against a database whose every operation
throws - the sentinel 200 response shows data access was not consulted. -/
theorem invalidId_sentinel_witness :
    ProductService.getProductById (failDb ("db down")) (.vStr "abc") = .str ("Invalid product id") ∧
    ProductService.getProductsByCatId (failDb ("db down")) (.vStr "abc") = .str ("Invalid product id") ∧
    ProductController.getByIdHandler (failDb ("db down")) "abc" =
      { status := 200, body := .json ("\x22Invalid product id\x22") } :=
  invalidId_sentinel (failDb ("db down")) "abc" (by decide)

/-- Claim C5: on a GET /bycat/:catId request with an undefined catId the
handler sets the 400 status but, lacking a return, still enters the try
block and issues the downstream service query. -/
theorem bycat_missingCatId_queries (db : Db) :
    (ProductController.bycatHandler db none).response.status = 400 ∧
    (ProductController.bycatHandler db none).serviceCalled = true :=
  ⟨rfl, rfl⟩

/-- Claim C6: createProduct inserts a row built only from the five
validated fields (the data object has no id position at all), the stored
row comes back with the storage-assigned id - the same id whatever Product
value (including its id field) the caller supplied - that id is positive
whenever the auto-increment counter holds its invariant, the stored row is
in the table afterwards, and the counter advances. -/
theorem createProduct_storeAssignsId (st : Store) (p : Product) (h : 1 ≤ st.nextId) :
    ProductData.createProduct (storeDb st) p =
      some { id := st.nextId, data := ProductData.rowDataOf p } ∧
    (∀ q : Product, (ProductData.createProduct (storeDb st) q).map Row.id = some st.nextId) ∧
    0 < st.nextId ∧
    ({ id := st.nextId, data := ProductData.rowDataOf p } : Row) ∈
      (st.createRow (ProductData.rowDataOf p)).2.rows ∧
    (st.createRow (ProductData.rowDataOf p)).2.nextId = st.nextId + 1 := by
  refine ⟨?_, fun q => ?_, h, ?_, ?_⟩ <;>
    simp [ProductData.createProduct, catchLogged, storeDb, Store.createRow]

/-- Claim C6 witness: inserting the example product into a fresh store
assigns id 1. -/
theorem createProduct_storeAssignsId_witness :
    ProductData.createProduct (storeDb { nextId := 1, rows := [] }) widgetProduct =
      some { id := 1, data := ProductData.rowDataOf widgetProduct } ∧
    0 < (1 : ℕ) :=
  ⟨(createProduct_storeAssignsId { nextId := 1, rows := [] } widgetProduct (by decide)).1,
   (createProduct_storeAssignsId { nextId := 1, rows := [] } widgetProduct (by decide)).2.2.1⟩

/-- Claim C7 counterexample: at id 7 the not-found result of getProductById
(the ORM null, `some none`) and its storage-failure result (undefined,
`none`) are distinct values, so they are not equal as the claim states. -/
theorem notFound_vs_failure_distinct :
    ProductData.getProductById (storeDb { nextId := 1, rows := [] }) (.vNum (Dec.ofNat 7)) =
      some none ∧
    ProductData.getProductById (failDb ("db down")) (.vNum (Dec.ofNat 7)) = none ∧
    ProductData.getProductById (storeDb { nextId := 1, rows := [] }) (.vNum (Dec.ofNat 7)) ≠
      ProductData.getProductById (failDb ("db down")) (.vNum (Dec.ofNat 7)) := by decide

/-- Claim C7 (amended): getProductById returns the ORM null when no row
matches and undefined after a storage failure - distinct values under
strict comparison - but both are nullish, so callers inspecting the result
by truthiness or loose equality cannot distinguish no-such-record from
storage failure. -/
theorem getProductById_bothNullish (db1 db2 : Db) (v : JSVal) (msg : String)
    (hnf : db1.findUnique v = .ok none)
    (herr : db2.findUnique v = .error msg) :
    ProductData.getProductById db1 v = some none ∧
    ProductData.getProductById db2 v = none ∧
    isNullish (ProductData.getProductById db1 v) = true ∧
    isNullish (ProductData.getProductById db2 v) = true := by
  refine ⟨?_, ?_, ?_, ?_⟩ <;>
    simp [ProductData.getProductById, catchLogged, hnf, herr, isNullish]

/-- Claim C7 witness: the empty store against the failing database. -/
theorem getProductById_bothNullish_witness :
    ProductData.getProductById (storeDb { nextId := 1, rows := [] }) (.vNum (Dec.ofNat 7)) =
      some none ∧
    ProductData.getProductById (failDb ("db down")) (.vNum (Dec.ofNat 7)) = none ∧
    isNullish (ProductData.getProductById (storeDb { nextId := 1, rows := [] })
      (.vNum (Dec.ofNat 7))) = true ∧
    isNullish (ProductData.getProductById (failDb ("db down")) (.vNum (Dec.ofNat 7))) = true :=
  getProductById_bothNullish (storeDb { nextId := 1, rows := [] }) (failDb ("db down"))
    (.vNum (Dec.ofNat 7)) "db down" (by decide) rfl

/-- Claim C8: on every input string, validateId returns the represented
integer exactly when the string is a clean positive-integer numeral (the
library parse `String.toNat?` succeeds with a positive value), and a falsy
signal on every non-numeric, negative, zero or fractional input (where the
parse fails or yields zero). -/
theorem validateId_posInt (s : String) :
    validateId (.vStr s) =
      (match s.toNat? with
       | some n => if 0 < n then some n else none
       | none => none) := by
  rw [String.toNat?, isNat_eq]
  by_cases h : isNumericNoSymbols s
  · simp only [validateId, h, if_true]
    have hfold : s.foldl (fun n c => n * 10 + (c.toNat - Char.toNat '0')) 0 = digitsVal s.data := by
      rw [String.foldl_eq]; rfl
    rw [hfold]
  · simp [validateId, h]

/-- Claim C9: addNewProduct validates its argument with validateNewProduct;
on success it returns the createProduct result for the validated product,
and on validation failure it returns the literal sentinel string with the
same result for every database, i.e. without calling data access. -/
theorem addNewProduct_dispatch (db : Db) (form : FormInput) :
    (∀ p, validateNewProduct form = .ok (some p) →
      ProductService.addNewProduct db form =
        .ok (match ProductData.createProduct db p with
             | some r => .row r
             | none => .undefinedVal)) ∧
    (validateNewProduct form = .ok none →
      ∀ db2 : Db, ProductService.addNewProduct db2 form = .ok (.str ("invalid product data"))) := by
  constructor
  · intro p hp
    simp [ProductService.addNewProduct, hp]
  · intro h0 db2
    simp [ProductService.addNewProduct, h0]

/-- Claim C9 witness: the example payload validates and is inserted into a
fresh store. -/
theorem addNewProduct_dispatch_witness :
    ProductService.addNewProduct (storeDb { nextId := 1, rows := [] }) (.obj widgetForm) =
      .ok (match ProductData.createProduct (storeDb { nextId := 1, rows := [] }) widgetProduct with
           | some r => .row r
           | none => .undefinedVal) :=
  (addNewProduct_dispatch (storeDb { nextId := 1, rows := [] }) (.obj widgetForm)).1
    widgetProduct (by decide)

/-- Claim C10: whenever validateId accepts a raw route-parameter string,
the service queries data access with the normalized number validateId
produced (never the raw string), and data access forwards its argument
unchanged into the ORM where-clause. -/
theorem validatedId_reachesOrm (db : Db) (raw : String) (n : ℕ)
    (h : validateId (.vStr raw) = some n) :
    ProductService.getProductById db (.vStr raw) =
      (match ProductData.getProductById db (.vNum (Dec.ofNat n)) with
       | some (some r) => .row r
       | some none => .null
       | none => .undefinedVal) ∧
    ProductService.getProductsByCatId db (.vStr raw) =
      (match ProductData.getProductsByCatId db (.vNum (Dec.ofNat n)) with
       | some rs => .rows rs
       | none => .undefinedVal) ∧
    (∀ v, ProductData.getProductById db v = catchLogged (db.findUnique v)) ∧
    (∀ v, ProductData.getProductsByCatId db v = catchLogged (db.findManyWhere v)) := by
  refine ⟨?_, ?_, fun v => rfl, fun v => rfl⟩ <;>
    simp [ProductService.getProductById, ProductService.getProductsByCatId, h]

/-- Claim C10 witness: the raw parameter "7" reaches the store as the
number 7. -/
theorem validatedId_reachesOrm_witness :
    ProductService.getProductById (storeDb { nextId := 1, rows := [] }) (.vStr "7") =
      (match ProductData.getProductById (storeDb { nextId := 1, rows := [] })
          (.vNum (Dec.ofNat 7)) with
       | some (some r) => .row r
       | some none => .null
       | none => .undefinedVal) :=
  (validatedId_reachesOrm (storeDb { nextId := 1, rows := [] }) "7" 7 (by decide)).1

end WebApiDb
